import Mathlib

/-!
Shallow embedding of `src/BFSI_VA.py`, the single Python module of this
repository.  The module has three phases:

1. Environment bootstrap: `load_dotenv(".env.local")`, falling back to
   `load_dotenv(".env")` when the first call loaded no data, then a
   validation of six required environment variables that prints a
   diagnostic and raises `SystemExit(1)` when any is missing.
2. The `Assistant` class, whose constructor attaches one large literal
   instruction string.
3. The async `entrypoint`, which constructs an `AgentSession` pipeline
   (stt / llm / tts / vad), starts it bound to the room of the job context with
   a freshly constructed `Assistant` and BVC noise cancellation, and then
   issues one `generate_reply` call carrying a literal greeting.

The embedding models the process environment as a partial map from
variable names to string values, dotenv files as association lists, and
the observable behaviour of a module run (and of one entrypoint
invocation) as a list of events, so that temporal claims ("exit before
any session is constructed") become statements about event traces.
-/

/-- The process environment: `os.getenv k` yields `none` when `k` is unset
and `some v` when it is set to `v` (possibly the empty string). -/
abbrev Env := String → Option String

/-- Python truthiness of an `os.getenv` result: `None` and the empty
string are falsy, every other string is truthy.  This is the test
`not os.getenv(k)` applies in the validation comprehension. -/
def pyTruthy : Option String → Bool
  | none => false
  | some v => !(v == "")

/-- `REQUIRED_ENV` from `src/BFSI_VA.py` lines 15-22, in declaration
order. -/
def REQUIRED_ENV : List String :=
  [ "LIVEKIT_URL",
    "LIVEKIT_API_KEY",
    "LIVEKIT_API_SECRET",
    "OPENAI_API_KEY",
    "CARTESIA_API_KEY",
    "DEEPGRAM_API_KEY" ]

/-- `missing = [k for k in REQUIRED_ENV if not os.getenv(k)]`
(`src/BFSI_VA.py` line 24). -/
def missingOf (env : Env) : List String :=
  REQUIRED_ENV.filter (fun k => !(pyTruthy (env k)))

/-- The diagnostic printed when variables are missing
(`src/BFSI_VA.py` lines 26-32): `missing_str = ", ".join(missing)`
interpolated into the fixed message text. -/
def missingMessage (missing : List String) : String :=
  "Missing required environment variables: " ++
    String.intercalate ", " missing ++ ".\n" ++
    "Create a .env.local file in the project folder (copy from .env.local.example) " ++
    "and fill in your credentials, then re-run this script."

/-- A dotenv file as parsed: the association list of its bindings, in file
order.  An absent (or empty) file parses to `[]`; `load_dotenv` reports
`True` exactly when this list is non-empty. -/
abbrev DotenvFile := List (String × String)

/-- One dotenv assignment with `override=False` (the `load_dotenv`
default): the variable is set only when it is not already present in the
process environment.  A variable present with the empty-string value
counts as present and is not overridden. -/
def setIfAbsent (env : Env) (k v : String) : Env :=
  fun q => if q = k then some ((env k).getD v) else env q

/-- Applying every binding of a dotenv file, in order, with
`override=False`. -/
def applyDotenv (file : DotenvFile) (env : Env) : Env :=
  file.foldl (fun acc kv => setIfAbsent acc kv.1 kv.2) env

/-- Observable events of a run of the module and of an entrypoint
invocation. -/
inductive Event where
  /-- a `load_dotenv(name)` call -/
  | loadFile (name : String)
  /-- a `print` call -/
  | printMsg (s : String)
  /-- `raise SystemExit(code)` -/
  | sysExit (code : Nat)
  /-- `agents.cli.run_app(agents.WorkerOptions(entrypoint_fnc=entrypoint))` -/
  | registerEntrypoint
  /-- `Assistant()` construction, carrying its instruction string -/
  | constructAssistant (instructions : String)
  /-- `AgentSession(...)` construction with its four configured endpoints -/
  | constructSession (stt llm tts vad : String)
  /-- `session.start(room=..., agent=..., room_input_options=...)` -/
  | sessionStart (room : String) (agentInstructions : String) (noiseCancellation : String)
  /-- `session.generate_reply(instructions=...)` -/
  | generateReply (instructions : String)
  deriving DecidableEq, Repr

/-- The environment after the layered dotenv load
(`src/BFSI_VA.py` lines 10-12): `.env.local` first; `.env` only when the
first call loaded no data. -/
def finalEnv (primary secondary : DotenvFile) (ambient : Env) : Env :=
  if primary.isEmpty then applyDotenv secondary (applyDotenv primary ambient)
  else applyDotenv primary ambient

/-- The load calls of the layered dotenv phase (`src/BFSI_VA.py` lines
10-12): `load_dotenv(".env.local")` is always called; `load_dotenv(".env")`
is called exactly when the first call returned `False`, i.e. when the
primary file yielded no data. -/
def loadTrace (primary : DotenvFile) : List Event :=
  Event.loadFile ".env.local" ::
    (if primary.isEmpty then [Event.loadFile ".env"] else [])

/-- Events after the dotenv load: the validation either falls through
(and, when the module is run directly, registers the entrypoint with the
worker loop) or prints the diagnostic and raises `SystemExit(1)`
(`src/BFSI_VA.py` lines 24-34 and 186-187). -/
def postLoadEvents (env : Env) (runAsMain : Bool) : List Event :=
  if (missingOf env).isEmpty then
    if runAsMain then [Event.registerEntrypoint] else []
  else
    [Event.printMsg (missingMessage (missingOf env)), Event.sysExit 1]

/-- The full observable trace of importing/running the module: layered
dotenv load, then validation, then (only on success, when run directly)
entrypoint registration. -/
def runModule (primary secondary : DotenvFile) (ambient : Env) (runAsMain : Bool) :
    List Event :=
  loadTrace primary ++ postLoadEvents (finalEnv primary secondary ambient) runAsMain

/-- The job context handed to `entrypoint` by the framework; the code
reads only `ctx.room`. -/
structure JobContext where
  room : String
  deriving DecidableEq, Repr

/-- `stt="deepgram/nova-2-general:en"` (`src/BFSI_VA.py` line 165). -/
def sttModel : String := "deepgram/nova-2-general:en"

/-- `llm="openai/gpt-4.1-mini"` (`src/BFSI_VA.py` line 166). -/
def llmModel : String := "openai/gpt-4.1-mini"

/-- `tts="cartesia/sonic-3:9626c31c-bec5-4cca-baa8-f8ba9e84c8bc"`
(`src/BFSI_VA.py` line 167). -/
def ttsModel : String := "cartesia/sonic-3:9626c31c-bec5-4cca-baa8-f8ba9e84c8bc"

/-- `vad=silero.VAD.load()` (`src/BFSI_VA.py` line 168). -/
def vadInstance : String := "silero.VAD"

/-- `noise_cancellation=noise_cancellation.BVC()`
(`src/BFSI_VA.py` line 177). -/
def noiseCancellationInstance : String := "BVC"

/-- The literal greeting instruction of the single `generate_reply` call
(`src/BFSI_VA.py` lines 181-183). -/
def greetingInstruction : String :=
  "Hi u have Reached the suppoRt of bfsi how may i help u today ."

/-- Template label `KYC Status` (`src/BFSI_VA.py` line 70). -/
def lblKYCStatus : String := "KYC Status"

/-- Template label `Documents Needed` (`src/BFSI_VA.py` line 71). -/
def lblDocumentsNeeded : String := "Documents Needed"

/-- Template label `Settlement Status` (`src/BFSI_VA.py` line 75). -/
def lblSettlementStatus : String := "Settlement Status"

/-- Template label `Refund Status` (`src/BFSI_VA.py` line 76). -/
def lblRefundStatus : String := "Refund Status"

/-- Template label `Chargeback Status` (`src/BFSI_VA.py` line 77). -/
def lblChargebackStatus : String := "Chargeback Status"

/-- Template label `Delay Apology` (`src/BFSI_VA.py` line 78). -/
def lblDelayApology : String := "Delay Apology"

/-- Template label `Escalation Offer` (`src/BFSI_VA.py` line 79). -/
def lblEscalationOffer : String := "Escalation Offer"

/-- Template label `Feedback Prompt` (`src/BFSI_VA.py` line 80). -/
def lblFeedbackPrompt : String := "Feedback Prompt"

def insSeg1 : String := "You are the AI Voice & Chat Assistant for a Payment Aggregator platform.\nPurpose: reduce onboarding drop-offs, answer merchant support queries, provide real-time transaction, settlement, refund, chargeback, and dispute information, gather feedback, and escalate unresolved or sensitive issues.\nAudience: merchants integrating or operating on <COMPANY_NAME> and their end customers asking status questions. Internal support teams consume your structured conversation summaries.\nChannels: voice calls (inbound/outbound), web chat widget, WhatsApp. Maintain consistency across channels.\n\nTone & Style:\n- Professional, concise, empathetic, fintech-specific.\n- No emojis, decorative symbols, excessive punctuation.\n- Default to English; if user speaks Hindi, Tamil, Telugu, Bengali, Marathi (or mixes), respond first in that language, optionally append an English clarification if complexity warrants.\n- Always be clear about next steps. Avoid jargon without brief explanation.\n\nGeneral Behavioral Rules:\n1. Authenticate context when needed: ask for Merchant ID / registered phone / email if querying account-specific data (unless provided in metadata).\n2. Never invent data. If a data point (KYC status, settlement date, refund status, chargeback reason) is unavailable from system tools, say it is not currently available and offer escalation.\n3. Be proactive: if merchant indicates delay, suggest probable causes (KYC pending, bank holiday, threshold not met) before escalation.\n4. Keep answers under ~35 spoken words unless giving step-by-step technical guidance.\n5. Offer to send links when referencing dashboard locations: KYC upload, API docs, webhook testing, dispute evidence upload.\n6. Escalate politely for: repeated failures, site/link errors, missing verification beyond SLA, chargeback appeal requests, negative sentiment + unresolved issue.\n7. Capture feedback (1–5 rating) after resolving or attempting resolution.\n\nCore Use Cases (must handle smoothly):\n- KYC follow-up: status check, required documents, rejection reason, upload guidance, reminder scheduling.\n- Integration assistance: API keys, environment mismatch, webhook troubleshooting, plugin/framework guidance.\n- Settlement queries: last settlement, next expected date, delays with reasons.\n- Refund queries: status, timeline, initiation process.\n- Chargeback & disputes: definition, status, reason, evidence upload guidance, deadline reminders.\n- Dispute follow-up: proactive reminder before evidence deadline.\n- Merchant feedback collection post resolution or settlement completion.\n\nStructured Response Patterns (adapt dynamically):\n"
def insSeg2 : String := ": “Your KYC is <status>. Usual review time is 24–48 hours. Would you like the document list again?”\n"
def insSeg3 : String := ": “You need PAN, business proof (GST or registration), and bank proof (cancelled cheque or recent statement).”\nUpload Help: “Use your dashboard → Settings → KYC Verification. I can resend a secure link. Files under 2MB in PDF/JPG/PNG.”\nIntegration API Keys: “Generate keys in Developer Dashboard → Settings → API Keys. Sandbox and live keys differ—confirm environment.”\nWebhook Failure: “Ensure the URL returns HTTP 200 and is publicly reachable. You can trigger test events from Dashboard → Webhooks.”\n"
def insSeg4 : String := ": “Your last settlement of <AMOUNT> was credited on <DATE>. Next is scheduled for <DATE>. Need a detailed report?”\n"
def insSeg5 : String := ": “Refund for transaction <TXN_ID> was initiated on <DATE>. Expected credit in 5–7 working days.”\n"
def insSeg6 : String := ": “Chargeback for <TXN_ID> amount <AMOUNT> reason ‘<REASON>’. Please upload evidence by <DEADLINE>.”\n"
def insSeg7 : String := ": “Sorry for the delay. Possible causes: pending KYC, bank holiday, or review hold. I can escalate now if you wish.”\n"
def insSeg8 : String := ": “I will escalate this to our <TEAM>. Please confirm preferred contact time.”\n"
def insSeg9 : String := ": “Was your issue resolved today? Please rate 1–5.”\n\nData Logging (instruction to internal system; do not read aloud unless asked):\n- merchant_id\n- pre_status (e.g., kyc_pending, dispute_open)\n- issue_category (kyc_docs_missing, integration_error, settlement_delay, refund_status, chargeback_info, dispute_deadline, feedback)\n- sentiment (positive, neutral, negative)\n- outcome (completed, deferred, escalated)\n- escalation_target (onboarding, finance, risk, tech_support)\n- follow_up_required (yes/no)\nIf unavailable, mark fields as null rather than guessing.\n\nDecision & Escalation Logic (implicit):\n- KYC pending >48h after correct upload → flag onboarding escalation.\n- Settlement delay beyond expected cycle + no bank holiday reason → escalate finance.\n- Chargeback approaching deadline (<24h) → send reminder with evidence link.\n- Repeated integration auth error after guidance → create tech_support ticket.\n- Negative sentiment + unresolved status query → escalate tier 2.\nAlways confirm escalation action and summarize what was escalated.\n\nLanguage Handling:\nIf user message entirely in Hindi (or another supported language), respond primarily in that language (example Hindi: “आपका KYC अभी पेंडिंग है, सामान्यतः 24–48 घंटे लगते हैं। क्या मैं डॉक्यूमेंट सूची फिर से भेज दूँ?”). Keep bilingual only if clarifying technical instructions.\n\nClarification Strategy:\nIf query ambiguous (e.g., “It’s pending”), ask a focused clarification: “Do you mean your KYC, settlement, or refund is pending?” before proceeding.\n\nSafety & Compliance:\n- Emphasize RBI compliance for KYC when asked why documents required.\n- Do not ask for or store sensitive personal data beyond required merchant verification fields.\n- If user requests insecure submission (email / chat file for sensitive docs), redirect to secure upload.\n\nNegative Sentiment Handling:\nAcknowledge + provide concrete action: “I understand the frustration. I’m tagging this for priority review and will escalate.”\n\nClosing Patterns:\nResolution: “Glad I could help. You’ll receive confirmation shortly.”\nPartial: “Some steps remain. I’ve scheduled follow-up and escalated for review.”\nUnresolved: “Escalated now. Expect a response within business SLA.”\n\nDo not:\n- Hallucinate transaction IDs, amounts, or dates.\n- Provide legal advice.\n- Promise exact settlement times if data not fetched.\n- Use emojis or decorative symbols.\n\nDemo Mode / Dummy Data (for demos when live data isn’t available):\n- Use these consistent sample values only when system integrations do not return data. Do not invent beyond these. Prefer clearly labeling as “Sample” unless the user indicates this is a demo.\n- Merchant profile:\n    • merchant_name: “Acme Retail Pvt Ltd”\n    • merchant_id: “MCH-000123”\n    • registered_phone: “+91-9876543210”\n    • registered_email: “owner@acme.example”\n- Settlements:\n    • last_settlement_amount: “₹1,24,560” on “27 Oct 2025”\n    • next_settlement_date: “29 Oct 2025”\n- Refunds:\n    • refund_txn_id: “TXN78412” amount “₹1,200” initiated “26 Oct 2025”, ETA “5–7 working days”\n- Chargebacks:\n    • chargeback_txn_id: “TXN98123” amount “₹5,400” reason “Product not delivered”, evidence_deadline “1 Nov 2025”\n- KYC:\n    • kyc_status: “under review” (typical 24–48 hours)\n    • required_docs: PAN, business proof (GST/registration), bank proof (cancelled cheque/recent statement)\n- Integration:\n    • api_keys_location: “Developer Dashboard → Settings → API Keys”\n    • webhook_note: “Ensure 200 OK and public reachability; test via Dashboard → Webhooks”\n- Usage hints:\n    • When asked “What’s my status?” and live data is unavailable, respond: “Sample data for demo — Your last settlement of ₹1,24,560 was credited on 27 Oct 2025. The next is scheduled for 29 Oct 2025. Shall I show how to find this in your dashboard?”\n    • When asked for a specific transaction and none is found, say: “I don’t have live data. Here’s a sample flow using TXN78412 to show the steps. Would you like me to proceed?”\n\nIf requested data not accessible:\n“Currently I cannot retrieve that information. I can escalate or you may check your dashboard reports. Which do you prefer?”\n\nInitial Greeting (inbound voice):\n“Hi, you’ve reached the support assistant for <COMPANY_NAME>. How can I help you today?”\n\nOutbound KYC Reminder:\n“Hi, we noticed your KYC is still pending. Would you like help completing it now?”\n\nMaintain consistency, accuracy, brevity, empathy. Begin now and greet the user appropriately."

/-- The instruction string the `Assistant` constructor passes to
`super().__init__` (`src/BFSI_VA.py` lines 40-158), written as the
concatenation of its text split exactly at the eight structured-response
template labels; the concatenation is byte-for-byte the source literal. -/
def assistantInstructions : String :=
  insSeg1 ++ lblKYCStatus ++ insSeg2 ++ lblDocumentsNeeded ++ insSeg3 ++
    lblSettlementStatus ++ insSeg4 ++ lblRefundStatus ++ insSeg5 ++
    lblChargebackStatus ++ insSeg6 ++ lblDelayApology ++ insSeg7 ++
    lblEscalationOffer ++ insSeg8 ++ lblFeedbackPrompt ++ insSeg9
/-- The observable trace of one `entrypoint(ctx)` invocation
(`src/BFSI_VA.py` lines 163-183): `AgentSession(...)` is constructed with
its four endpoints, `Assistant()` is constructed as the `agent=` argument,
the session is started bound to `ctx.room`, and one reply is generated
with the literal greeting. -/
def entrypoint (ctx : JobContext) : List Event :=
  [ Event.constructSession sttModel llmModel ttsModel vadInstance,
    Event.constructAssistant assistantInstructions,
    Event.sessionStart ctx.room assistantInstructions noiseCancellationInstance,
    Event.generateReply greetingInstruction ]

/-- Recognizer for `print` events. -/
def isPrint : Event → Bool
  | .printMsg _ => true
  | _ => false

/-- Recognizer for `SystemExit` events. -/
def isExit : Event → Bool
  | .sysExit _ => true
  | _ => false

/-- Recognizer for the entrypoint-registration event. -/
def isRegister : Event → Bool
  | .registerEntrypoint => true
  | _ => false

/-- Recognizer for `Assistant()` construction events. -/
def isConstructAssistant : Event → Bool
  | .constructAssistant _ => true
  | _ => false

/-- Recognizer for `AgentSession(...)` construction events. -/
def isConstructSession : Event → Bool
  | .constructSession _ _ _ _ => true
  | _ => false

/-- Recognizer for `session.start(...)` events. -/
def isSessionStart : Event → Bool
  | .sessionStart _ _ _ => true
  | _ => false

/-- Recognizer for `session.generate_reply(...)` events. -/
def isGenerateReply : Event → Bool
  | .generateReply _ => true
  | _ => false

/-- An event that constructs or operates an agent or session object. -/
def isSessionObjectEvent (e : Event) : Bool :=
  isConstructAssistant e || isConstructSession e || isSessionStart e || isGenerateReply e

/-- The text of a `generate_reply` event, if any. -/
def replyText : Event → Option String
  | .generateReply s => some s
  | _ => none

/-- The instruction string of an `Assistant()` construction event, if
any. -/
def assistantText : Event → Option String
  | .constructAssistant s => some s
  | _ => none

/-- `pat` occurs verbatim as a contiguous substring of `s`. -/
def ContainsSubstr (s pat : String) : Prop :=
  ∃ pre post : String, s = pre ++ pat ++ post

theorem strAppend_assoc (a b c : String) : a ++ b ++ c = a ++ (b ++ c) := by
  apply String.ext
  simp [String.data_append, List.append_assoc]

theorem containsSubstr_ne_empty {s pat : String}
    (h : ContainsSubstr s pat) (hp : pat ≠ "") : s ≠ "" := by
  rcases h with ⟨pre, post, rfl⟩
  intro h0
  apply hp
  have h1 : (pre ++ pat ++ post).data = [] := by rw [h0]
  rw [String.data_append, String.data_append] at h1
  rcases List.append_eq_nil.mp h1 with ⟨h2, _⟩
  rcases List.append_eq_nil.mp h2 with ⟨_, h5⟩
  apply String.ext
  rw [h5]

theorem applyDotenv_get (file : DotenvFile) (env : Env) (k : String) :
    applyDotenv file env k = (env k).or (List.lookup k file) := by
  induction file generalizing env with
  | nil =>
    show env k = (env k).or (List.lookup k [])
    cases env k <;> rfl
  | cons kv rest ih =>
    rcases kv with ⟨a, b⟩
    show applyDotenv rest (setIfAbsent env a b) k = _
    rw [ih]
    by_cases hk : k = a
    · subst hk
      simp [setIfAbsent, List.lookup]
      cases env k <;> rfl
    · have hka : (k == a) = false := beq_eq_false_iff_ne.mpr hk
      simp [setIfAbsent, hk, List.lookup, hka]

theorem mem_missingOf {env : Env} {k : String} :
    k ∈ missingOf env ↔ k ∈ REQUIRED_ENV ∧ pyTruthy (env k) = false := by
  unfold missingOf
  rw [List.mem_filter]
  simp [Bool.not_eq_true']

theorem missingOf_sublist (env : Env) : (missingOf env).Sublist REQUIRED_ENV :=
  List.filter_sublist _

theorem missingOf_eq_nil_iff {env : Env} :
    missingOf env = [] ↔ ∀ k ∈ REQUIRED_ENV, pyTruthy (env k) = true := by
  unfold missingOf
  rw [List.filter_eq_nil_iff]
  constructor
  · intro h k hk
    have := h k hk
    simpa using this
  · intro h k hk
    simp [h k hk]

/-- Claim C1: for every subset of the six required environment variables
left unset (or empty) at startup, the validation prints a single
diagnostic naming exactly that unset subset and terminates with
`SystemExit(1)`, before any agent or session object is constructed. -/
theorem startup_missing_prints_and_exits
    (primary secondary : DotenvFile) (ambient : Env) (runAsMain : Bool) (k : String)
    (h : missingOf (finalEnv primary secondary ambient) ≠ []) :
    runModule primary secondary ambient runAsMain =
      loadTrace primary ++
        [Event.printMsg (missingMessage (missingOf (finalEnv primary secondary ambient))),
         Event.sysExit 1] ∧
    (runModule primary secondary ambient runAsMain).countP (fun e => isPrint e) = 1 ∧
    (runModule primary secondary ambient runAsMain).countP (fun e => isExit e) = 1 ∧
    (k ∈ missingOf (finalEnv primary secondary ambient) ↔
      k ∈ REQUIRED_ENV ∧ pyTruthy (finalEnv primary secondary ambient k) = false) ∧
    (runModule primary secondary ambient runAsMain).countP
      (fun e => isSessionObjectEvent e) = 0 := by
  have hne : (missingOf (finalEnv primary secondary ambient)).isEmpty = false := by
    rw [Bool.eq_false_iff]
    intro hh
    exact h (List.isEmpty_iff.mp hh)
  refine ⟨?_, ?_, ?_, mem_missingOf, ?_⟩
  · simp [runModule, postLoadEvents, hne]
  · cases hp : primary.isEmpty <;>
      simp [runModule, postLoadEvents, hne, loadTrace, hp, isPrint, List.countP_cons,
        List.countP_append]
  · cases hp : primary.isEmpty <;>
      simp [runModule, postLoadEvents, hne, loadTrace, hp, isExit, List.countP_cons,
        List.countP_append]
  · cases hp : primary.isEmpty <;>
      simp [runModule, postLoadEvents, hne, loadTrace, hp, isSessionObjectEvent,
        isConstructAssistant, isConstructSession, isSessionStart, isGenerateReply,
        List.countP_cons, List.countP_append]

theorem startup_missing_prints_and_exits_witness :
    missingOf (finalEnv [] [] (fun _ => none)) ≠ [] ∧
    runModule [] [] (fun _ => none) true =
      loadTrace [] ++
        [Event.printMsg (missingMessage (missingOf (finalEnv [] [] (fun _ => none)))),
         Event.sysExit 1] :=
  ⟨by decide,
   (startup_missing_prints_and_exits [] [] (fun _ => none) true "OPENAI_API_KEY"
      (by decide)).1⟩

/-- Claim C2: when any required variable is absent, the fail-fast exit is
the last event of the module run, and the run contains no entrypoint
registration, no `Assistant` construction, no session construction, no
session start, and no reply generation: no network session is ever
created. -/
theorem startup_missing_no_session_no_registration
    (primary secondary : DotenvFile) (ambient : Env) (runAsMain : Bool)
    (h : missingOf (finalEnv primary secondary ambient) ≠ []) :
    (runModule primary secondary ambient runAsMain).getLast? = some (Event.sysExit 1) ∧
    (runModule primary secondary ambient runAsMain).countP (fun e => isRegister e) = 0 ∧
    (runModule primary secondary ambient runAsMain).countP
      (fun e => isConstructAssistant e) = 0 ∧
    (runModule primary secondary ambient runAsMain).countP
      (fun e => isConstructSession e) = 0 ∧
    (runModule primary secondary ambient runAsMain).countP
      (fun e => isSessionStart e) = 0 ∧
    (runModule primary secondary ambient runAsMain).countP
      (fun e => isGenerateReply e) = 0 := by
  have hne : (missingOf (finalEnv primary secondary ambient)).isEmpty = false := by
    rw [Bool.eq_false_iff]
    intro hh
    exact h (List.isEmpty_iff.mp hh)
  refine ⟨?_, ?_, ?_, ?_, ?_, ?_⟩ <;>
    cases hp : primary.isEmpty <;>
      simp [runModule, postLoadEvents, hne, loadTrace, hp, isRegister,
        isConstructAssistant, isConstructSession, isSessionStart, isGenerateReply,
        List.countP_cons, List.countP_append, List.getLast?_append]

theorem startup_missing_no_session_no_registration_witness :
    missingOf (finalEnv [] [] (fun _ => none)) ≠ [] ∧
    (runModule [] [] (fun _ => none) true).getLast? = some (Event.sysExit 1) ∧
    (runModule [] [] (fun _ => none) true).countP (fun e => isRegister e) = 0 :=
  ⟨by decide,
   (startup_missing_no_session_no_registration [] [] (fun _ => none) true (by decide)).1,
   (startup_missing_no_session_no_registration [] [] (fun _ => none) true (by decide)).2.1⟩

/-- Claim C3: when all six required variables are set to non-empty
values, the module run prints nothing, raises no exit, and, when run
directly, registers the entrypoint with the worker loop. -/
theorem startup_all_set_registers_entrypoint
    (primary secondary : DotenvFile) (ambient : Env) (runAsMain : Bool)
    (h : ∀ k ∈ REQUIRED_ENV, pyTruthy (finalEnv primary secondary ambient k) = true) :
    runModule primary secondary ambient runAsMain =
      loadTrace primary ++ (if runAsMain then [Event.registerEntrypoint] else []) ∧
    (runModule primary secondary ambient runAsMain).countP (fun e => isPrint e) = 0 ∧
    (runModule primary secondary ambient runAsMain).countP (fun e => isExit e) = 0 ∧
    Event.registerEntrypoint ∈ runModule primary secondary ambient true := by
  have hnil : missingOf (finalEnv primary secondary ambient) = [] :=
    missingOf_eq_nil_iff.mpr h
  refine ⟨?_, ?_, ?_, ?_⟩
  · simp [runModule, postLoadEvents, hnil]
  · cases hp : primary.isEmpty <;> cases runAsMain <;>
      simp [runModule, postLoadEvents, hnil, loadTrace, hp, isPrint,
        List.countP_cons, List.countP_append]
  · cases hp : primary.isEmpty <;> cases runAsMain <;>
      simp [runModule, postLoadEvents, hnil, loadTrace, hp, isExit,
        List.countP_cons, List.countP_append]
  · simp [runModule, postLoadEvents, hnil]

theorem startup_all_set_registers_entrypoint_witness :
    (∀ k ∈ REQUIRED_ENV, pyTruthy (finalEnv [] [] (fun _ => some "x") k) = true) ∧
    runModule [] [] (fun _ => some "x") true =
      loadTrace [] ++ [Event.registerEntrypoint] :=
  ⟨by decide,
   (startup_all_set_registers_entrypoint [] [] (fun _ => some "x") true (by decide)).1⟩

/-- Claim C4: every entrypoint invocation constructs exactly one pipeline
with its four configured endpoints, then performs exactly one session
start bound to the room of the context, and then issues exactly one reply
request carrying the literal greeting instruction, in that order. -/
theorem entrypoint_one_pipeline_one_start_one_reply (ctx : JobContext) :
    entrypoint ctx =
      [ Event.constructSession sttModel llmModel ttsModel vadInstance,
        Event.constructAssistant assistantInstructions,
        Event.sessionStart ctx.room assistantInstructions noiseCancellationInstance,
        Event.generateReply greetingInstruction ] ∧
    (entrypoint ctx).countP (fun e => isConstructSession e) = 1 ∧
    (entrypoint ctx).countP (fun e => isSessionStart e) = 1 ∧
    (entrypoint ctx).countP (fun e => isGenerateReply e) = 1 ∧
    (entrypoint ctx).findIdx (fun e => isConstructSession e) <
      (entrypoint ctx).findIdx (fun e => isSessionStart e) ∧
    (entrypoint ctx).findIdx (fun e => isSessionStart e) <
      (entrypoint ctx).findIdx (fun e => isGenerateReply e) := by
  refine ⟨rfl, ?_, ?_, ?_, ?_, ?_⟩ <;>
    simp [entrypoint, isConstructSession, isSessionStart, isGenerateReply,
      List.countP_cons, List.findIdx_cons]

theorem entrypoint_one_pipeline_one_start_one_reply_witness :
    entrypoint ⟨"demo-room"⟩ =
      [ Event.constructSession sttModel llmModel ttsModel vadInstance,
        Event.constructAssistant assistantInstructions,
        Event.sessionStart "demo-room" assistantInstructions noiseCancellationInstance,
        Event.generateReply greetingInstruction ] :=
  (entrypoint_one_pipeline_one_start_one_reply ⟨"demo-room"⟩).1

/-- Claim C10: the assistant instruction string and the greeting
instruction issued by the entrypoint are fixed constants: any two
invocations of the entrypoint, whatever their session contexts, carry the
same assistant instruction string and the same greeting text. -/
theorem entrypoint_constants_deterministic (ctx1 ctx2 : JobContext) :
    (entrypoint ctx1).filterMap replyText = [greetingInstruction] ∧
    (entrypoint ctx1).filterMap assistantText = [assistantInstructions] ∧
    (entrypoint ctx1).filterMap replyText = (entrypoint ctx2).filterMap replyText ∧
    (entrypoint ctx1).filterMap assistantText =
      (entrypoint ctx2).filterMap assistantText := by
  refine ⟨?_, ?_, ?_, ?_⟩ <;> simp [entrypoint, replyText, assistantText]

theorem entrypoint_constants_deterministic_witness :
    (entrypoint ⟨"room-a"⟩).filterMap replyText =
      (entrypoint ⟨"room-b"⟩).filterMap replyText ∧
    (entrypoint ⟨"room-a"⟩).filterMap assistantText =
      (entrypoint ⟨"room-b"⟩).filterMap assistantText :=
  ⟨(entrypoint_constants_deterministic ⟨"room-a"⟩ ⟨"room-b"⟩).2.2.1,
   (entrypoint_constants_deterministic ⟨"room-a"⟩ ⟨"room-b"⟩).2.2.2⟩

/-- Suffix of the instruction string from the `KYC Status` template body
onward. -/
def insTail2 : String :=
  insSeg2 ++ lblDocumentsNeeded ++ insSeg3 ++ lblSettlementStatus ++ insSeg4 ++
    lblRefundStatus ++ insSeg5 ++ lblChargebackStatus ++ insSeg6 ++ lblDelayApology ++
    insSeg7 ++ lblEscalationOffer ++ insSeg8 ++ lblFeedbackPrompt ++ insSeg9


/-- Claim C5: the instruction string attached to the `Assistant` value is
non-empty and contains each of the eight structured-response template
labels verbatim as substrings. -/
theorem assistant_instructions_nonempty_with_templates :
    assistantInstructions ≠ "" ∧
    ContainsSubstr assistantInstructions "KYC Status" ∧
    ContainsSubstr assistantInstructions "Documents Needed" ∧
    ContainsSubstr assistantInstructions "Settlement Status" ∧
    ContainsSubstr assistantInstructions "Refund Status" ∧
    ContainsSubstr assistantInstructions "Chargeback Status" ∧
    ContainsSubstr assistantInstructions "Delay Apology" ∧
    ContainsSubstr assistantInstructions "Escalation Offer" ∧
    ContainsSubstr assistantInstructions "Feedback Prompt" := by
  have hk : ContainsSubstr assistantInstructions "KYC Status" :=
    ⟨insSeg1, insTail2, by
      simp [assistantInstructions, insTail2, lblKYCStatus, strAppend_assoc]⟩
  refine ⟨containsSubstr_ne_empty hk (by decide), hk, ?_, ?_, ?_, ?_, ?_, ?_, ?_⟩
  · exact ⟨insSeg1 ++ lblKYCStatus ++ insSeg2,
      insSeg3 ++ lblSettlementStatus ++ insSeg4 ++ lblRefundStatus ++ insSeg5 ++
        lblChargebackStatus ++ insSeg6 ++ lblDelayApology ++ insSeg7 ++
        lblEscalationOffer ++ insSeg8 ++ lblFeedbackPrompt ++ insSeg9, by
      simp [assistantInstructions, lblDocumentsNeeded, strAppend_assoc]⟩
  · exact ⟨insSeg1 ++ lblKYCStatus ++ insSeg2 ++ lblDocumentsNeeded ++ insSeg3,
      insSeg4 ++ lblRefundStatus ++ insSeg5 ++ lblChargebackStatus ++ insSeg6 ++
        lblDelayApology ++ insSeg7 ++ lblEscalationOffer ++ insSeg8 ++
        lblFeedbackPrompt ++ insSeg9, by
      simp [assistantInstructions, lblSettlementStatus, strAppend_assoc]⟩
  · exact ⟨insSeg1 ++ lblKYCStatus ++ insSeg2 ++ lblDocumentsNeeded ++ insSeg3 ++
        lblSettlementStatus ++ insSeg4,
      insSeg5 ++ lblChargebackStatus ++ insSeg6 ++ lblDelayApology ++ insSeg7 ++
        lblEscalationOffer ++ insSeg8 ++ lblFeedbackPrompt ++ insSeg9, by
      simp [assistantInstructions, lblRefundStatus, strAppend_assoc]⟩
  · exact ⟨insSeg1 ++ lblKYCStatus ++ insSeg2 ++ lblDocumentsNeeded ++ insSeg3 ++
        lblSettlementStatus ++ insSeg4 ++ lblRefundStatus ++ insSeg5,
      insSeg6 ++ lblDelayApology ++ insSeg7 ++ lblEscalationOffer ++ insSeg8 ++
        lblFeedbackPrompt ++ insSeg9, by
      simp [assistantInstructions, lblChargebackStatus, strAppend_assoc]⟩
  · exact ⟨insSeg1 ++ lblKYCStatus ++ insSeg2 ++ lblDocumentsNeeded ++ insSeg3 ++
        lblSettlementStatus ++ insSeg4 ++ lblRefundStatus ++ insSeg5 ++
        lblChargebackStatus ++ insSeg6,
      insSeg7 ++ lblEscalationOffer ++ insSeg8 ++ lblFeedbackPrompt ++ insSeg9, by
      simp [assistantInstructions, lblDelayApology, strAppend_assoc]⟩
  · exact ⟨insSeg1 ++ lblKYCStatus ++ insSeg2 ++ lblDocumentsNeeded ++ insSeg3 ++
        lblSettlementStatus ++ insSeg4 ++ lblRefundStatus ++ insSeg5 ++
        lblChargebackStatus ++ insSeg6 ++ lblDelayApology ++ insSeg7,
      insSeg8 ++ lblFeedbackPrompt ++ insSeg9, by
      simp [assistantInstructions, lblEscalationOffer, strAppend_assoc]⟩
  · exact ⟨insSeg1 ++ lblKYCStatus ++ insSeg2 ++ lblDocumentsNeeded ++ insSeg3 ++
        lblSettlementStatus ++ insSeg4 ++ lblRefundStatus ++ insSeg5 ++
        lblChargebackStatus ++ insSeg6 ++ lblDelayApology ++ insSeg7 ++
        lblEscalationOffer ++ insSeg8,
      insSeg9, by
      simp [assistantInstructions, lblFeedbackPrompt, strAppend_assoc]⟩

theorem loadFile_not_mem_postLoadEvents (env : Env) (m : Bool) (name : String) :
    Event.loadFile name ∉ postLoadEvents env m := by
  unfold postLoadEvents
  split
  · split <;> simp
  · simp

/-- Claim C6: the secondary file `.env` is consulted if and only if the
primary `.env.local` yields no data; and when only the secondary file
exists and supplies every required key with a non-empty value (the
ambient environment leaving them unset), startup succeeds: nothing is
printed, no exit is raised, and the entrypoint is registered. -/
theorem dotenv_secondary_iff_primary_empty
    (primary secondary : DotenvFile) (ambient : Env) (runAsMain : Bool)
    (hamb : ∀ k ∈ REQUIRED_ENV, ambient k = none)
    (hsec : ∀ k ∈ REQUIRED_ENV, ∃ v, List.lookup k secondary = some v ∧ v ≠ "") :
    (Event.loadFile ".env" ∈ runModule primary secondary ambient runAsMain ↔
      primary = []) ∧
    missingOf (finalEnv [] secondary ambient) = [] ∧
    (runModule [] secondary ambient runAsMain).countP (fun e => isPrint e) = 0 ∧
    (runModule [] secondary ambient runAsMain).countP (fun e => isExit e) = 0 ∧
    Event.registerEntrypoint ∈ runModule [] secondary ambient true := by
  have hnil : missingOf (finalEnv [] secondary ambient) = [] := by
    apply missingOf_eq_nil_iff.mpr
    intro k hk
    rcases hsec k hk with ⟨v, hv, hvne⟩
    have hfe : finalEnv [] secondary ambient k = some v := by
      show applyDotenv secondary (applyDotenv [] ambient) k = some v
      have e0 : applyDotenv [] ambient = ambient := rfl
      rw [applyDotenv_get, e0, hamb k hk, hv]
      rfl
    rw [hfe]
    simp [pyTruthy, hvne]
  refine ⟨?_, hnil, ?_, ?_, ?_⟩
  · constructor
    · intro h
      rcases List.mem_append.mp h with h1 | h2
      · cases hp : primary.isEmpty
        · rw [loadTrace] at h1
          simp [hp] at h1
        · exact List.isEmpty_iff.mp hp
      · exact absurd h2 (loadFile_not_mem_postLoadEvents _ _ _)
    · intro h
      subst h
      simp [runModule, loadTrace]
  · cases runAsMain <;>
      simp [runModule, postLoadEvents, hnil, loadTrace, isPrint,
        List.countP_cons, List.countP_append]
  · cases runAsMain <;>
      simp [runModule, postLoadEvents, hnil, loadTrace, isExit,
        List.countP_cons, List.countP_append]
  · simp [runModule, postLoadEvents, hnil]

theorem dotenv_secondary_iff_primary_empty_witness :
    (Event.loadFile ".env" ∈
        runModule [("OTHER_KEY", "y")]
          [("LIVEKIT_URL", "a"), ("LIVEKIT_API_KEY", "b"), ("LIVEKIT_API_SECRET", "c"),
           ("OPENAI_API_KEY", "d"), ("CARTESIA_API_KEY", "e"), ("DEEPGRAM_API_KEY", "f")]
          (fun _ => none) true ↔
      ([("OTHER_KEY", "y")] : DotenvFile) = []) ∧
    missingOf
      (finalEnv []
        [("LIVEKIT_URL", "a"), ("LIVEKIT_API_KEY", "b"), ("LIVEKIT_API_SECRET", "c"),
         ("OPENAI_API_KEY", "d"), ("CARTESIA_API_KEY", "e"), ("DEEPGRAM_API_KEY", "f")]
        (fun _ => none)) = [] :=
  ⟨(dotenv_secondary_iff_primary_empty [("OTHER_KEY", "y")]
      [("LIVEKIT_URL", "a"), ("LIVEKIT_API_KEY", "b"), ("LIVEKIT_API_SECRET", "c"),
       ("OPENAI_API_KEY", "d"), ("CARTESIA_API_KEY", "e"), ("DEEPGRAM_API_KEY", "f")]
      (fun _ => none) true (by decide)
      (by
        intro k hk
        simp [REQUIRED_ENV] at hk
        rcases hk with rfl | rfl | rfl | rfl | rfl | rfl <;>
          exact ⟨_, rfl, by decide⟩)).1,
   (dotenv_secondary_iff_primary_empty [("OTHER_KEY", "y")]
      [("LIVEKIT_URL", "a"), ("LIVEKIT_API_KEY", "b"), ("LIVEKIT_API_SECRET", "c"),
       ("OPENAI_API_KEY", "d"), ("CARTESIA_API_KEY", "e"), ("DEEPGRAM_API_KEY", "f")]
      (fun _ => none) true (by decide)
      (by
        intro k hk
        simp [REQUIRED_ENV] at hk
        rcases hk with rfl | rfl | rfl | rfl | rfl | rfl <;>
          exact ⟨_, rfl, by decide⟩)).2.1⟩

set_option maxRecDepth 8192 in
/-- Claim C7: when both configuration files are absent and the six
required variables are unset in the ambient environment, the module run
prints the message naming the missing variables (every required name
occurs in it) and exits with status 1. -/
theorem both_files_absent_all_unset_fails
    (ambient : Env) (runAsMain : Bool) (k : String)
    (hamb : ∀ q ∈ REQUIRED_ENV, ambient q = none)
    (hk : k ∈ REQUIRED_ENV) :
    missingOf (finalEnv [] [] ambient) = REQUIRED_ENV ∧
    runModule [] [] ambient runAsMain =
      [Event.loadFile ".env.local", Event.loadFile ".env",
       Event.printMsg (missingMessage REQUIRED_ENV), Event.sysExit 1] ∧
    ContainsSubstr (missingMessage REQUIRED_ENV) k := by
  have hall : missingOf (finalEnv [] [] ambient) = REQUIRED_ENV := by
    have e0 : finalEnv [] [] ambient = ambient := rfl
    rw [e0]
    apply List.filter_eq_self.mpr
    intro q hq
    rw [hamb q hq]
    rfl
  refine ⟨hall, ?_, ?_⟩
  · simp [runModule, loadTrace, postLoadEvents, hall, REQUIRED_ENV]
  · simp [REQUIRED_ENV] at hk
    rcases hk with rfl | rfl | rfl | rfl | rfl | rfl
    · exact ⟨"Missing required environment variables: ",
        ", LIVEKIT_API_KEY, LIVEKIT_API_SECRET, OPENAI_API_KEY, CARTESIA_API_KEY, DEEPGRAM_API_KEY.\nCreate a .env.local file in the project folder (copy from .env.local.example) and fill in your credentials, then re-run this script.",
        by decide⟩
    · exact ⟨"Missing required environment variables: LIVEKIT_URL, ",
        ", LIVEKIT_API_SECRET, OPENAI_API_KEY, CARTESIA_API_KEY, DEEPGRAM_API_KEY.\nCreate a .env.local file in the project folder (copy from .env.local.example) and fill in your credentials, then re-run this script.",
        by decide⟩
    · exact ⟨"Missing required environment variables: LIVEKIT_URL, LIVEKIT_API_KEY, ",
        ", OPENAI_API_KEY, CARTESIA_API_KEY, DEEPGRAM_API_KEY.\nCreate a .env.local file in the project folder (copy from .env.local.example) and fill in your credentials, then re-run this script.",
        by decide⟩
    · exact ⟨"Missing required environment variables: LIVEKIT_URL, LIVEKIT_API_KEY, LIVEKIT_API_SECRET, ",
        ", CARTESIA_API_KEY, DEEPGRAM_API_KEY.\nCreate a .env.local file in the project folder (copy from .env.local.example) and fill in your credentials, then re-run this script.",
        by decide⟩
    · exact ⟨"Missing required environment variables: LIVEKIT_URL, LIVEKIT_API_KEY, LIVEKIT_API_SECRET, OPENAI_API_KEY, ",
        ", DEEPGRAM_API_KEY.\nCreate a .env.local file in the project folder (copy from .env.local.example) and fill in your credentials, then re-run this script.",
        by decide⟩
    · exact ⟨"Missing required environment variables: LIVEKIT_URL, LIVEKIT_API_KEY, LIVEKIT_API_SECRET, OPENAI_API_KEY, CARTESIA_API_KEY, ",
        ".\nCreate a .env.local file in the project folder (copy from .env.local.example) and fill in your credentials, then re-run this script.",
        by decide⟩

theorem both_files_absent_all_unset_fails_witness :
    missingOf (finalEnv [] [] (fun _ => none)) = REQUIRED_ENV ∧
    runModule [] [] (fun _ => none) false =
      [Event.loadFile ".env.local", Event.loadFile ".env",
       Event.printMsg (missingMessage REQUIRED_ENV), Event.sysExit 1] :=
  ⟨(both_files_absent_all_unset_fails (fun _ => none) false "LIVEKIT_URL"
      (by decide) (by decide)).1,
   (both_files_absent_all_unset_fails (fun _ => none) false "LIVEKIT_URL"
      (by decide) (by decide)).2.1⟩

/-- Claim C8: a required variable set to the empty string is treated
exactly like an absent one: it lands in the missing list (so the
validation prints and exits with status 1), and replacing the
empty-string binding by an absent binding leaves the missing list
unchanged. -/
theorem empty_string_treated_as_missing
    (env env2 : Env) (k : String) (runAsMain : Bool)
    (hk : k ∈ REQUIRED_ENV) (h : env k = some "")
    (hagree : ∀ q, q ≠ k → env2 q = env q) (h2 : env2 k = none) :
    k ∈ missingOf env ∧
    missingOf env ≠ [] ∧
    missingOf env2 = missingOf env ∧
    postLoadEvents env runAsMain =
      [Event.printMsg (missingMessage (missingOf env)), Event.sysExit 1] := by
  have hmem : k ∈ missingOf env := mem_missingOf.mpr ⟨hk, by rw [h]; rfl⟩
  have hne : missingOf env ≠ [] := List.ne_nil_of_mem hmem
  have heq : missingOf env2 = missingOf env := by
    apply List.filter_congr
    intro q _
    by_cases hqk : q = k
    · subst hqk
      rw [h2, h]
      decide
    · rw [hagree q hqk]
  have hnee : (missingOf env).isEmpty = false := by
    rw [Bool.eq_false_iff]
    intro hh
    exact hne (List.isEmpty_iff.mp hh)
  refine ⟨hmem, hne, heq, ?_⟩
  simp [postLoadEvents, hnee]

theorem empty_string_treated_as_missing_witness :
    "OPENAI_API_KEY" ∈
      missingOf (fun q => if q = "OPENAI_API_KEY" then some "" else some "x") ∧
    missingOf (fun q => if q = "OPENAI_API_KEY" then none else some "x") =
      missingOf (fun q => if q = "OPENAI_API_KEY" then some "" else some "x") :=
  ⟨(empty_string_treated_as_missing
      (fun q => if q = "OPENAI_API_KEY" then some "" else some "x")
      (fun q => if q = "OPENAI_API_KEY" then none else some "x")
      "OPENAI_API_KEY" true (by decide) (by simp)
      (by intro q hq; simp [hq]) (by simp)).1,
   (empty_string_treated_as_missing
      (fun q => if q = "OPENAI_API_KEY" then some "" else some "x")
      (fun q => if q = "OPENAI_API_KEY" then none else some "x")
      "OPENAI_API_KEY" true (by decide) (by simp)
      (by intro q hq; simp [hq]) (by simp)).2.2.1⟩

/-- Claim C9: the missing list is the sublist of `REQUIRED_ENV` of
exactly the non-truthy keys, so the diagnostic reports the names joined
by a comma and a space in the fixed declaration order, determined only by
which required keys are non-truthy, not by any other environment
content. -/
theorem missing_list_order_and_join
    (env env2 : Env) (k : String)
    (hsame : ∀ q ∈ REQUIRED_ENV, pyTruthy (env q) = pyTruthy (env2 q)) :
    (missingOf env).Sublist REQUIRED_ENV ∧
    (k ∈ missingOf env ↔ k ∈ REQUIRED_ENV ∧ pyTruthy (env k) = false) ∧
    missingMessage (missingOf env) =
      "Missing required environment variables: " ++
        String.intercalate ", " (missingOf env) ++ ".\n" ++
        "Create a .env.local file in the project folder (copy from .env.local.example) " ++
        "and fill in your credentials, then re-run this script." ∧
    missingOf env = missingOf env2 := by
  refine ⟨missingOf_sublist env, mem_missingOf, rfl, ?_⟩
  apply List.filter_congr
  intro q hq
  rw [hsame q hq]

theorem missing_list_order_and_join_witness :
    (missingOf (fun _ => none)).Sublist REQUIRED_ENV ∧
    missingOf (fun _ => none) = missingOf (fun _ => some "") :=
  ⟨(missing_list_order_and_join (fun _ => none) (fun _ => some "") "CARTESIA_API_KEY"
      (by decide)).1,
   (missing_list_order_and_join (fun _ => none) (fun _ => some "") "CARTESIA_API_KEY"
      (by decide)).2.2.2⟩
